import Mathlib

/-!
Shallow embedding of src/app.py, a Streamlit Binance trading bot, used to
check the natural-language specification claims C1 to C10.

Modelling conventions.
Python floats are modelled as rationals.  A pandas rolling mean over an
underfull window yields the float NaN; that value is modelled as none of
Option Rat, and every comparison against none is false, matching IEEE NaN
comparison semantics.  Streamlit display calls (st.error, st.success,
st.warning) are modelled as entries of an append-only log; invocations of
client.order_market are recorded as Call values.  An exception escaping to
the outer try of the Run Bot handler is modelled by the tick result raised,
after which the handler stops, as in the source.  Nondeterministic inputs
of one loop iteration (the fetched candles, the free balance, whether the
exchange accepts each order) are gathered in a TickInput record; a run of
the handler consumes a list of such records, one per iteration, truncating
the unbounded while loop at the end of the list.
-/

namespace App

/-- Order side strings BUY and SELL of the source. -/
inductive Side where
  | BUY
  | SELL
deriving DecidableEq

/-- Result strings of determine_trade_action. -/
inductive Action where
  | Buy
  | Sell
  | Hold
deriving DecidableEq

/-- Observable log entries emitted through the Streamlit calls. -/
inductive Log where
  | runError       -- st.error in the outer except of the Run Bot handler
  | orderError     -- st.error inside the except of place_order
  | entrySuccess   -- st.success after an entry order was stored
  | profitTarget   -- st.success on the profit target branch
  | stopLoss       -- st.warning on the stop loss branch
  | activeWarning  -- st.warning when a trade is already in progress
deriving DecidableEq

/-- The active_trade dictionary stored in st.session_state. -/
structure Trade where
  side : Side
  entry_price : ℚ
  quantity : ℚ
  target_price : ℚ
  stop_price : ℚ
deriving DecidableEq

/-- Sidebar configuration values: trade_amount, profit_target, stop_loss. -/
structure Config where
  trade_amount : ℚ
  profit_target : ℚ
  stop_loss : ℚ
deriving DecidableEq

/-- One invocation of client.order_market. -/
structure Call where
  symbol : String
  side : Side
  quantity : ℚ
deriving DecidableEq

/-- Strict less-than on possibly-NaN floats: any comparison involving NaN
(modelled as none) is false. -/
def qlt : Option ℚ → Option ℚ → Bool
  | some a, some b => decide (a < b)
  | _, _ => false

/-- Value of df close rolling(window=k).mean().iloc[-1] for a series of
closes: NaN (none) when the series holds fewer than k values, otherwise
the arithmetic mean of the last k closes. -/
def rollingMeanLast (k : ℕ) (closes : List ℚ) : Option ℚ :=
  if closes.length < k then none
  else some ((closes.drop (closes.length - k)).sum / (k : ℚ))

/-- calculate_averages of app.py lines 41 to 46, as a function of the close
column: the short (5), medium (20) and long (50) rolling means at the last
row.  The source raises at iloc[-1] on an empty frame; the tick embedding
below raises before ever reaching this call in that case, so the value of
this def on the empty list is never consulted there. -/
def calculate_averages (closes : List ℚ) : Option ℚ × Option ℚ × Option ℚ :=
  (rollingMeanLast 5 closes, rollingMeanLast 20 closes, rollingMeanLast 50 closes)

/-- determine_trade_action of app.py lines 48 to 55. -/
def determine_trade_action (short_avg medium_avg long_avg current_price : Option ℚ) :
    Action :=
  if qlt long_avg medium_avg && qlt medium_avg short_avg && qlt short_avg current_price then
    .Sell
  else if qlt medium_avg long_avg && qlt short_avg medium_avg && qlt current_price short_avg then
    .Buy
  else
    .Hold

/-- Rounding of the Python builtin round to the nearest integer, ties to
even. -/
def pyRoundInt (x : ℚ) : ℤ :=
  if Int.fract x < 1/2 then ⌊x⌋
  else if 1/2 < Int.fract x then ⌊x⌋ + 1
  else if ⌊x⌋ % 2 = 0 then ⌊x⌋ else ⌊x⌋ + 1

/-- round(x, 6) of the Python builtin: round to six decimal places, ties to
even. -/
def round6 (x : ℚ) : ℚ := (pyRoundInt (x * 1000000) : ℚ) / 1000000

/-- place_order of app.py lines 57 to 68: submits a market order through
client.order_market, returning the order on success; on failure the error
is logged and None is returned.  The accepted argument stands for whether
the exchange accepts the order.  The components are the returned value, the
collaborator calls made, and the log entries emitted. -/
def place_order (side : Side) (quantity : ℚ) (symbol : String) (accepted : Bool) :
    Option Unit × List Call × List Log :=
  (if accepted then some () else none,
   [⟨symbol, side, quantity⟩],
   if accepted then [] else [Log.orderError])

/-- Buy-side target price of app.py line 98. -/
def buy_target_price (price pct : ℚ) : ℚ := price * (1 + pct / 100)

/-- Buy-side stop price of app.py line 99. -/
def buy_stop_price (price pct : ℚ) : ℚ := price * (1 - pct / 100)

/-- Sell-side target price of app.py line 115. -/
def sell_target_price (price pct : ℚ) : ℚ := price * (1 - pct / 100)

/-- Sell-side stop price of app.py line 116. -/
def sell_stop_price (price pct : ℚ) : ℚ := price * (1 + pct / 100)

/-- External inputs consumed by one iteration of the while loop. -/
structure TickInput where
  fetch : Option (List ℚ)    -- closes of get_live_data; none when get_klines raises
  balance : Option ℚ         -- free balance read in the Sell branch; none when it raises
  entryOrderAccepted : Bool  -- exchange verdict on the entry order, if one is placed
  closeOrderAccepted : Bool  -- exchange verdict on the closing order, if one is placed
deriving DecidableEq

/-- How one loop iteration ended. -/
inductive TickResult where
  | continued  -- fell through to time.sleep; the while loop iterates again
  | broke      -- break after an entry order was stored
  | raised     -- an exception escaped to the outer except; the handler ends
deriving DecidableEq

/-- Full effect of one loop iteration: the active_trade slot afterwards, the
collaborator calls made, the log entries emitted, the number of entry
transitions stored (instrumentation), and how the iteration ended. -/
structure TickOut where
  active : Option Trade
  calls : List Call
  logs : List Log
  opens : ℕ
  result : TickResult
deriving DecidableEq

/-- Exit monitoring of app.py lines 128 to 148: when a trade is active and
the current price crosses its target or stop, a closing market order is
placed and the active trade is cleared; the result of the closing order is
ignored by the source, so the slot is cleared even when the order fails. -/
def monitor (symbol : String) (active : Option Trade) (current_price : ℚ)
    (closeOrderAccepted : Bool) : Option Trade × List Call × List Log :=
  match active with
  | none => (none, [], [])
  | some t =>
    match t.side with
    | .BUY =>
      if current_price ≥ t.target_price then
        let po := place_order .SELL t.quantity symbol closeOrderAccepted
        (none, po.2.1, Log.profitTarget :: po.2.2)
      else if current_price ≤ t.stop_price then
        let po := place_order .SELL t.quantity symbol closeOrderAccepted
        (none, po.2.1, Log.stopLoss :: po.2.2)
      else (some t, [], [])
    | .SELL =>
      if current_price ≤ t.target_price then
        let po := place_order .BUY t.quantity symbol closeOrderAccepted
        (none, po.2.1, Log.profitTarget :: po.2.2)
      else if current_price ≥ t.stop_price then
        let po := place_order .BUY t.quantity symbol closeOrderAccepted
        (none, po.2.1, Log.stopLoss :: po.2.2)
      else (some t, [], [])

/-- Tail of a loop iteration that did not break: the display steps, the exit
monitoring, the trailing display, and time.sleep, after which the loop
iterates again.  The cs and ls arguments carry the calls and logs of a
failed entry order earlier in the same iteration. -/
def holdStep (symbol : String) (active : Option Trade) (current_price : ℚ)
    (closeOrderAccepted : Bool) (cs : List Call) (ls : List Log) : TickOut :=
  let m := monitor symbol active current_price closeOrderAccepted
  ⟨m.1, cs ++ m.2.1, ls ++ m.2.2, 0, .continued⟩

/-- Body of one while-loop iteration after the fetch and the current price
succeeded, app.py lines 83 to 156.  Note the Sell entry branch of line 104
fires only when an active trade already exists, and the Buy entry branch of
line 88 carries no such guard. -/
def tickCore (cfg : Config) (symbol : String) (active : Option Trade)
    (inp : TickInput) (closes : List ℚ) (current_price : ℚ) : TickOut :=
  let avgs := calculate_averages closes
  let action := determine_trade_action avgs.1 avgs.2.1 avgs.2.2 (some current_price)
  if action = .Buy then
    let quantity := round6 (cfg.trade_amount / current_price)
    let po := place_order .BUY quantity symbol inp.entryOrderAccepted
    if po.1.isSome then
      ⟨some ⟨.BUY, current_price, quantity,
             buy_target_price current_price cfg.profit_target,
             buy_stop_price current_price cfg.stop_loss⟩,
       po.2.1, po.2.2 ++ [Log.entrySuccess], 1, .broke⟩
    else
      holdStep symbol active current_price inp.closeOrderAccepted po.2.1 po.2.2
  else if action = .Sell ∧ active.isSome then
    match inp.balance with
    | none => ⟨active, [], [Log.runError], 0, .raised⟩
    | some bal =>
      let po := place_order .SELL bal symbol inp.entryOrderAccepted
      if po.1.isSome then
        ⟨some ⟨.SELL, current_price, bal,
               sell_target_price current_price cfg.profit_target,
               sell_stop_price current_price cfg.stop_loss⟩,
         po.2.1, po.2.2 ++ [Log.entrySuccess], 1, .broke⟩
      else
        holdStep symbol active current_price inp.closeOrderAccepted po.2.1 po.2.2
  else
    holdStep symbol active current_price inp.closeOrderAccepted [] []

/-- One iteration of the while loop, app.py lines 77 to 156: the fetch of
line 79 (raising on a network failure), the current price of line 80
(raising on an empty frame), then the iteration body. -/
def tick (cfg : Config) (symbol : String) (active : Option Trade) (inp : TickInput) :
    TickOut :=
  match inp.fetch with
  | none => ⟨active, [], [Log.runError], 0, .raised⟩
  | some closes =>
    match closes.getLast? with
    | none => ⟨active, [], [Log.runError], 0, .raised⟩
    | some current_price => tickCore cfg symbol active inp closes current_price

/-- Cumulative effect of a run of the handler. -/
structure RunOut where
  active : Option Trade
  calls : List Call
  logs : List Log
  opens : ℕ
deriving DecidableEq

/-- The while True loop of app.py line 77, consuming one TickInput per
iteration and truncated at the end of the modelled input trace.  A broke
iteration exits the loop; a raised iteration ends the handler through the
outer except of line 158. -/
def runLoop (cfg : Config) (symbol : String) : Option Trade → List TickInput → RunOut
  | a, [] => ⟨a, [], [], 0⟩
  | a, i :: rest =>
    let o := tick cfg symbol a i
    match o.result with
    | .broke => ⟨o.active, o.calls, o.logs, o.opens⟩
    | .raised => ⟨o.active, o.calls, o.logs, o.opens⟩
    | .continued =>
      let r := runLoop cfg symbol o.active rest
      ⟨r.active, o.calls ++ r.calls, o.logs ++ r.logs, o.opens + r.opens⟩

/-- The Run Bot button handler, app.py lines 71 to 159: the active-trade
guard of lines 74 and 75, then the loop. -/
def run_bot (cfg : Config) (symbol : String) (active : Option Trade)
    (inputs : List TickInput) : RunOut :=
  match active with
  | some t => ⟨some t, [], [Log.activeWarning], 0⟩
  | none => runLoop cfg symbol none inputs

/-- Concrete configuration: trade_amount 50 USDT, profit target 2, stop
loss 2 (the sidebar defaults). -/
def cfg0 : Config := ⟨50, 2, 2⟩

/-- Concrete configuration with trade_amount at its sidebar minimum of 10. -/
def cfgMin : Config := ⟨10, 2, 2⟩

/-- A concrete open BUY trade: entry 100, quantity 1, target 102, stop 98
(the 2 percent defaults applied at entry price 100). -/
def tBuy0 : Trade := ⟨.BUY, 100, 1, 102, 98⟩

/-- Fifty flat candles at close 100: all averages equal 100, price 100. -/
def flat100 : List ℚ := List.replicate 50 100

/-- Fifty flat candles at close 103. -/
def flat103 : List ℚ := List.replicate 50 103

/-- A window classified Buy at its last price 1: short 9 fifths, medium
1509 twentieths, long 4509 fiftieths, each strictly above the next shorter
one, and the price below the short average. -/
def buyCloses : List ℚ := List.replicate 45 100 ++ (List.replicate 4 2 ++ [1])

/-- A window classified Sell at its last price 300: short 220, medium 130,
long 112. -/
def sellCloses : List ℚ := List.replicate 45 100 ++ (List.replicate 4 200 ++ [300])

/-- A Buy-classified window at the very large last price of one hundred
million, against which the minimum trade amount rounds to quantity zero. -/
def bigCloses : List ℚ :=
  List.replicate 45 300000000 ++ (List.replicate 4 200000000 ++ [100000000])

/-- A benign tick input over the flat window. -/
def flatTick : TickInput := ⟨some flat100, some 0, true, true⟩

/-- A tick input over the flat window at 103 whose closing order fails. -/
def closeFailTick : TickInput := ⟨some flat103, some 0, true, false⟩

/-- A tick input over the Buy window with the entry order accepted. -/
def buyTick : TickInput := ⟨some buyCloses, some 0, true, true⟩

/-- A tick input over the Buy window with the entry order rejected. -/
def buyFailTick : TickInput := ⟨some buyCloses, some 0, false, true⟩

/-- A tick input over the Sell window with free balance 5. -/
def sellTick : TickInput := ⟨some sellCloses, some 5, true, true⟩

/-- A tick input over the Sell window with free balance zero. -/
def sellZeroTick : TickInput := ⟨some sellCloses, some 0, true, true⟩

/-- A tick input over the huge-price Buy window. -/
def bigTick : TickInput := ⟨some bigCloses, some 0, true, true⟩

/-- A tick input whose candle fetch raises. -/
def failTick : TickInput := ⟨none, some 0, true, true⟩

/-- Evaluation rule for pyRoundInt when the value sits strictly below the
midpoint above its floor. -/
theorem pyRoundInt_down (y : ℚ) (n : ℤ) (h1 : (n : ℚ) ≤ y) (h2 : y - n < 1/2) :
    pyRoundInt y = n := by
  have hfl : ⌊y⌋ = n := by
    rw [Int.floor_eq_iff]
    constructor
    · exact h1
    · linarith
  have hfr : Int.fract y < 1/2 := by
    have := Int.floor_add_fract y
    rw [hfl] at this
    linarith
  unfold pyRoundInt
  rw [if_pos hfr, hfl]

/-- Evaluation rule for pyRoundInt when the value sits strictly above the
midpoint below its ceiling. -/
theorem pyRoundInt_up (y : ℚ) (n : ℤ) (h1 : (n : ℚ) + 1/2 < y) (h2 : y < n + 1) :
    pyRoundInt y = n + 1 := by
  have hfl : ⌊y⌋ = n := by
    rw [Int.floor_eq_iff]
    constructor
    · linarith
    · linarith
  have hfr : 1/2 < Int.fract y := by
    have := Int.floor_add_fract y
    rw [hfl] at this
    linarith
  unfold pyRoundInt
  rw [if_neg (by linarith), if_pos hfr, hfl]

/-- A quantity rounded to six places is positive as soon as the unrounded
value exceeds half of the smallest representable step. -/
theorem round6_pos (x : ℚ) (h : 1/2000000 < x) : 0 < round6 x := by
  have hy : (1:ℚ)/2 < x * 1000000 := by linarith
  have hfl := Int.floor_add_fract (x * 1000000)
  have hf0 := Int.fract_nonneg (x * 1000000)
  have hf1 := Int.fract_lt_one (x * 1000000)
  have hpos : 0 < pyRoundInt (x * 1000000) := by
    unfold pyRoundInt
    split_ifs with h1 h2 h3
    · have hq : (0:ℚ) < ⌊x * 1000000⌋ := by linarith
      exact_mod_cast hq
    · have h0 : (0:ℤ) ≤ ⌊x * 1000000⌋ := Int.floor_nonneg.mpr (by linarith)
      omega
    · have hf : Int.fract (x * 1000000) = 1/2 := le_antisymm (not_lt.mp h2) (not_lt.mp h1)
      have hq : (0:ℚ) < ⌊x * 1000000⌋ := by
        rw [hf] at hfl
        linarith
      exact_mod_cast hq
    · have hf : Int.fract (x * 1000000) = 1/2 := le_antisymm (not_lt.mp h2) (not_lt.mp h1)
      have hq : (0:ℚ) < ⌊x * 1000000⌋ := by
        rw [hf] at hfl
        linarith
      have h0 : (0:ℤ) < ⌊x * 1000000⌋ := by exact_mod_cast hq
      omega
  unfold round6
  have hc : (0:ℚ) < (pyRoundInt (x * 1000000) : ℚ) := by exact_mod_cast hpos
  positivity

/-- A tick whose fetch raises ends the handler without touching state. -/
theorem tick_fetch_none (cfg : Config) (symbol : String) (active : Option Trade)
    (inp : TickInput) (h : inp.fetch = none) :
    tick cfg symbol active inp = ⟨active, [], [Log.runError], 0, .raised⟩ := by
  unfold tick
  rw [h]

/-- A tick whose fetch succeeds on a nonempty frame runs the iteration body. -/
theorem tick_eq_core (cfg : Config) (symbol : String) (active : Option Trade)
    (inp : TickInput) (closes : List ℚ) (p : ℚ)
    (hf : inp.fetch = some closes) (hp : closes.getLast? = some p) :
    tick cfg symbol active inp = tickCore cfg symbol active inp closes p := by
  simp only [tick, hf, hp]

/-- Equation for the Buy entry branch when the exchange accepts the order. -/
theorem tickCore_buy_accepted (cfg : Config) (symbol : String) (active : Option Trade)
    (inp : TickInput) (closes : List ℚ) (p : ℚ)
    (ha : determine_trade_action (calculate_averages closes).1
      (calculate_averages closes).2.1 (calculate_averages closes).2.2 (some p) = .Buy)
    (hacc : inp.entryOrderAccepted = true) :
    tickCore cfg symbol active inp closes p =
      ⟨some ⟨.BUY, p, round6 (cfg.trade_amount / p),
             buy_target_price p cfg.profit_target, buy_stop_price p cfg.stop_loss⟩,
       [⟨symbol, .BUY, round6 (cfg.trade_amount / p)⟩], [Log.entrySuccess], 1, .broke⟩ := by
  simp [tickCore, ha, hacc, place_order]

/-- Equation for the Buy entry branch when the exchange rejects the order and
no trade is active: the failure is logged and the iteration continues with
the state unchanged. -/
theorem tickCore_buy_rejected (cfg : Config) (symbol : String)
    (inp : TickInput) (closes : List ℚ) (p : ℚ)
    (ha : determine_trade_action (calculate_averages closes).1
      (calculate_averages closes).2.1 (calculate_averages closes).2.2 (some p) = .Buy)
    (hacc : inp.entryOrderAccepted = false) :
    tickCore cfg symbol none inp closes p =
      ⟨none, [⟨symbol, .BUY, round6 (cfg.trade_amount / p)⟩], [Log.orderError], 0,
       .continued⟩ := by
  simp [tickCore, ha, hacc, place_order, holdStep, monitor]

/-- Equation for a Sell classification with no active trade: the guard of the
Sell entry branch fails and the iteration body does nothing. -/
theorem tickCore_sell_skipped (cfg : Config) (symbol : String)
    (inp : TickInput) (closes : List ℚ) (p : ℚ)
    (ha : determine_trade_action (calculate_averages closes).1
      (calculate_averages closes).2.1 (calculate_averages closes).2.2 (some p) = .Sell) :
    tickCore cfg symbol none inp closes p = ⟨none, [], [], 0, .continued⟩ := by
  simp [tickCore, ha, holdStep, monitor]

/-- Equation for the Sell entry branch with an active trade when the balance
read succeeds and the exchange accepts the order. -/
theorem tickCore_sell_accepted (cfg : Config) (symbol : String) (t : Trade)
    (inp : TickInput) (closes : List ℚ) (p bal : ℚ)
    (ha : determine_trade_action (calculate_averages closes).1
      (calculate_averages closes).2.1 (calculate_averages closes).2.2 (some p) = .Sell)
    (hb : inp.balance = some bal)
    (hacc : inp.entryOrderAccepted = true) :
    tickCore cfg symbol (some t) inp closes p =
      ⟨some ⟨.SELL, p, bal,
             sell_target_price p cfg.profit_target, sell_stop_price p cfg.stop_loss⟩,
       [⟨symbol, .SELL, bal⟩], [Log.entrySuccess], 1, .broke⟩ := by
  simp [tickCore, ha, hb, hacc, place_order]

/-- Equation for a Hold classification: the entry branches are skipped and
the iteration falls through to exit monitoring. -/
theorem tickCore_hold (cfg : Config) (symbol : String) (active : Option Trade)
    (inp : TickInput) (closes : List ℚ) (p : ℚ)
    (ha : determine_trade_action (calculate_averages closes).1
      (calculate_averages closes).2.1 (calculate_averages closes).2.2 (some p) = .Hold) :
    tickCore cfg symbol active inp closes p =
      holdStep symbol active p inp.closeOrderAccepted [] [] := by
  simp [tickCore, ha]

/-- A tick stores at most one entry transition, and a tick that falls
through to the next iteration stores none. -/
theorem tick_opens_le (cfg : Config) (symbol : String) (active : Option Trade)
    (inp : TickInput) :
    (tick cfg symbol active inp).opens ≤ 1 ∧
      ((tick cfg symbol active inp).result = .continued →
        (tick cfg symbol active inp).opens = 0) := by
  obtain ⟨f, b, eo, co⟩ := inp
  cases f with
  | none => simp [tick]
  | some closes =>
    cases hp : closes.getLast? with
    | none => simp [tick, hp]
    | some p =>
      rw [tick_eq_core _ _ _ _ closes p rfl hp]
      cases b <;> cases eo <;>
        simp [tickCore, holdStep, place_order] <;>
        split_ifs <;> simp

/-- Over a whole run of the loop, at most one entry transition is stored:
every iteration before the last falls through with no entry stored, and an
iteration that stores one breaks out of the loop. -/
theorem runLoop_opens_le (cfg : Config) (symbol : String) :
    ∀ (inputs : List TickInput) (a : Option Trade),
      (runLoop cfg symbol a inputs).opens ≤ 1 := by
  intro inputs
  induction inputs with
  | nil =>
    intro a
    simp [runLoop]
  | cons i rest ih =>
    intro a
    have ht := tick_opens_le cfg symbol a i
    unfold runLoop
    cases hr : (tick cfg symbol a i).result with
    | broke => simp only [hr]; exact ht.1
    | raised => simp only [hr]; exact ht.1
    | continued =>
      simp only [hr, ht.2 hr, Nat.zero_add]
      exact ih _

/-- C2.  While a position is open (active_trade is not None), no second
Idle-to-Open transition is reachable regardless of subsequent signals:
every run of the Run Bot handler stores at most one entry transition, and a
run starting with an open position stores none at all (its guard skips the
loop), so at most one position exists at any time. -/
theorem C2_single_inflight_position (cfg : Config) (symbol : String)
    (active : Option Trade) (inputs : List TickInput) :
    (run_bot cfg symbol active inputs).opens ≤ 1 ∧
      (active ≠ none → (run_bot cfg symbol active inputs).opens = 0) := by
  cases active with
  | none =>
    refine ⟨?_, by simp⟩
    simp only [run_bot]
    exact runLoop_opens_le cfg symbol inputs none
  | some t => simp [run_bot]

/-- C1.  Under the momentum-follow policy, with all four inputs defined, the
classifier returns Sell exactly when medium is above long, short above
medium and price above short; Buy exactly when medium is below long, short
below medium and price below short; and Hold exactly otherwise, so equality
at any comparison yields Hold. -/
theorem C1_momentum_classifier (s m l p : ℚ) :
    (determine_trade_action (some s) (some m) (some l) (some p) = .Sell ↔
      (m > l ∧ s > m ∧ p > s)) ∧
    (determine_trade_action (some s) (some m) (some l) (some p) = .Buy ↔
      (m < l ∧ s < m ∧ p < s)) ∧
    (determine_trade_action (some s) (some m) (some l) (some p) = .Hold ↔
      (¬(m > l ∧ s > m ∧ p > s) ∧ ¬(m < l ∧ s < m ∧ p < s))) := by
  simp only [determine_trade_action, qlt, Bool.and_eq_true, decide_eq_true_eq, gt_iff_lt]
  split_ifs with h1 h2
  · obtain ⟨⟨hlm, hms⟩, hsp⟩ := h1
    simp [hlm, hms, hsp, lt_asymm hlm]
  · obtain ⟨⟨hml, hsm⟩, hps⟩ := h2
    simp [hml, hsm, hps, lt_asymm hml]
  · simp only [reduceCtorEq, false_iff, iff_true, true_iff]
    refine ⟨?_, ?_, ?_, ?_⟩ <;> tauto

/-- Evaluation rule for a defined rolling mean. -/
theorem rollingMeanLast_eq (k : ℕ) (closes tail : List ℚ) (v : ℚ)
    (hk : ¬ closes.length < k) (hd : closes.drop (closes.length - k) = tail)
    (hs : tail.sum / (k : ℚ) = v) :
    rollingMeanLast k closes = some v := by
  unfold rollingMeanLast
  rw [if_neg hk, hd, hs]

/-- Comparisons with an undefined left operand are false. -/
theorem qlt_none_left (b : Option ℚ) : qlt none b = false := rfl

/-- Comparisons with an undefined right operand are false. -/
theorem qlt_none_right (a : Option ℚ) : qlt a none = false := by
  cases a <;> rfl

/-- Averages of the flat window at 100. -/
theorem flat100_avgs : calculate_averages flat100 = (some 100, some 100, some 100) := by
  unfold calculate_averages
  rw [rollingMeanLast_eq 5 flat100 (List.replicate 5 100) 100 (by decide) rfl
        (by norm_num [List.sum_replicate]),
      rollingMeanLast_eq 20 flat100 (List.replicate 20 100) 100 (by decide) rfl
        (by norm_num [List.sum_replicate]),
      rollingMeanLast_eq 50 flat100 (List.replicate 50 100) 100 (by decide) rfl
        (by norm_num [List.sum_replicate])]

/-- Averages of the flat window at 103. -/
theorem flat103_avgs : calculate_averages flat103 = (some 103, some 103, some 103) := by
  unfold calculate_averages
  rw [rollingMeanLast_eq 5 flat103 (List.replicate 5 103) 103 (by decide) rfl
        (by norm_num [List.sum_replicate]),
      rollingMeanLast_eq 20 flat103 (List.replicate 20 103) 103 (by decide) rfl
        (by norm_num [List.sum_replicate]),
      rollingMeanLast_eq 50 flat103 (List.replicate 50 103) 103 (by decide) rfl
        (by norm_num [List.sum_replicate])]

/-- Averages of the Buy window. -/
theorem buyCloses_avgs :
    calculate_averages buyCloses = (some (9/5), some (1509/20), some (4509/50)) := by
  unfold calculate_averages
  rw [rollingMeanLast_eq 5 buyCloses (List.replicate 4 2 ++ [1]) (9/5) (by decide) rfl
        (by norm_num [List.sum_replicate]),
      rollingMeanLast_eq 20 buyCloses
        (List.replicate 15 100 ++ (List.replicate 4 2 ++ [1])) (1509/20) (by decide) rfl
        (by norm_num [List.sum_replicate]),
      rollingMeanLast_eq 50 buyCloses
        (List.replicate 45 100 ++ (List.replicate 4 2 ++ [1])) (4509/50) (by decide) rfl
        (by norm_num [List.sum_replicate])]

/-- Averages of the Sell window. -/
theorem sellCloses_avgs :
    calculate_averages sellCloses = (some 220, some 130, some 112) := by
  unfold calculate_averages
  rw [rollingMeanLast_eq 5 sellCloses (List.replicate 4 200 ++ [300]) 220 (by decide) rfl
        (by norm_num [List.sum_replicate]),
      rollingMeanLast_eq 20 sellCloses
        (List.replicate 15 100 ++ (List.replicate 4 200 ++ [300])) 130 (by decide) rfl
        (by norm_num [List.sum_replicate]),
      rollingMeanLast_eq 50 sellCloses
        (List.replicate 45 100 ++ (List.replicate 4 200 ++ [300])) 112 (by decide) rfl
        (by norm_num [List.sum_replicate])]

/-- Averages of the huge-price Buy window. -/
theorem bigCloses_avgs :
    calculate_averages bigCloses =
      (some 180000000, some 270000000, some 288000000) := by
  unfold calculate_averages
  rw [rollingMeanLast_eq 5 bigCloses
        (List.replicate 4 200000000 ++ [100000000]) 180000000 (by decide) rfl
        (by norm_num [List.sum_replicate]),
      rollingMeanLast_eq 20 bigCloses
        (List.replicate 15 300000000 ++ (List.replicate 4 200000000 ++ [100000000]))
        270000000 (by decide) rfl (by norm_num [List.sum_replicate]),
      rollingMeanLast_eq 50 bigCloses
        (List.replicate 45 300000000 ++ (List.replicate 4 200000000 ++ [100000000]))
        288000000 (by decide) rfl (by norm_num [List.sum_replicate])]

/-- The flat window at 100 classifies Hold. -/
theorem flat100_action :
    determine_trade_action (calculate_averages flat100).1 (calculate_averages flat100).2.1
      (calculate_averages flat100).2.2 (some 100) = .Hold := by
  rw [flat100_avgs]
  simp only [determine_trade_action, qlt]
  norm_num

/-- The flat window at 103 classifies Hold. -/
theorem flat103_action :
    determine_trade_action (calculate_averages flat103).1 (calculate_averages flat103).2.1
      (calculate_averages flat103).2.2 (some 103) = .Hold := by
  rw [flat103_avgs]
  simp only [determine_trade_action, qlt]
  norm_num

/-- The Buy window classifies Buy at its last price 1. -/
theorem buyCloses_action :
    determine_trade_action (calculate_averages buyCloses).1 (calculate_averages buyCloses).2.1
      (calculate_averages buyCloses).2.2 (some 1) = .Buy := by
  rw [buyCloses_avgs]
  simp only [determine_trade_action, qlt]
  norm_num

/-- The Sell window classifies Sell at its last price 300. -/
theorem sellCloses_action :
    determine_trade_action (calculate_averages sellCloses).1
      (calculate_averages sellCloses).2.1 (calculate_averages sellCloses).2.2
      (some 300) = .Sell := by
  rw [sellCloses_avgs]
  simp only [determine_trade_action, qlt]
  norm_num

/-- The huge-price window classifies Buy at its last price of one hundred
million. -/
theorem bigCloses_action :
    determine_trade_action (calculate_averages bigCloses).1
      (calculate_averages bigCloses).2.1 (calculate_averages bigCloses).2.2
      (some 100000000) = .Buy := by
  rw [bigCloses_avgs]
  simp only [determine_trade_action, qlt]
  norm_num

/-- Witness for C2 at a concrete run that starts with an open position. -/
theorem C2_single_inflight_position_witness :
    (run_bot cfg0 "BTCUSDT" (some tBuy0) [flatTick]).opens ≤ 1 ∧
      (run_bot cfg0 "BTCUSDT" (some tBuy0) [flatTick]).opens = 0 :=
  ⟨(C2_single_inflight_position cfg0 "BTCUSDT" (some tBuy0) [flatTick]).1,
   (C2_single_inflight_position cfg0 "BTCUSDT" (some tBuy0) [flatTick]).2 (by simp)⟩

/-- C3 (amended).  An entry order failure rolls the transition back: the
position slot stays empty, the failure is logged, and the loop continues.
A closing order failure is not rolled back: whenever exit monitoring runs
against an exchange that rejects the order, either no order is attempted
and the trade is kept, or the failing order is attempted, logged, and the
position slot is cleared all the same. -/
theorem C3_order_failure_handling :
    (∀ (cfg : Config) (symbol : String) (inp : TickInput) (closes : List ℚ) (p : ℚ),
      inp.fetch = some closes → closes.getLast? = some p →
      determine_trade_action (calculate_averages closes).1 (calculate_averages closes).2.1
        (calculate_averages closes).2.2 (some p) = .Buy →
      inp.entryOrderAccepted = false →
      (tick cfg symbol none inp).active = none ∧
        Log.orderError ∈ (tick cfg symbol none inp).logs ∧
        (tick cfg symbol none inp).result = .continued) ∧
    (∀ (symbol : String) (t : Trade) (p : ℚ),
      ((monitor symbol (some t) p false).1 = some t ∧
        (monitor symbol (some t) p false).2.1 = []) ∨
      ((monitor symbol (some t) p false).1 = none ∧
        Log.orderError ∈ (monitor symbol (some t) p false).2.2)) := by
  constructor
  · intro cfg symbol inp closes p hf hp ha hacc
    rw [tick_eq_core cfg symbol none inp closes p hf hp,
        tickCore_buy_rejected cfg symbol inp closes p ha hacc]
    simp
  · intro symbol t p
    rcases hs : t.side with _ | _ <;>
      · unfold monitor
        simp only [hs]
        split_ifs <;> simp [place_order]

/-- Witness for C3 at a rejected Buy entry over the Buy window and a failing
close against the open trade tBuy0 at price 103. -/
theorem C3_order_failure_handling_witness :
    ((tick cfg0 "BTCUSDT" none buyFailTick).active = none ∧
      Log.orderError ∈ (tick cfg0 "BTCUSDT" none buyFailTick).logs ∧
      (tick cfg0 "BTCUSDT" none buyFailTick).result = .continued) ∧
    (((monitor "BTCUSDT" (some tBuy0) 103 false).1 = some tBuy0 ∧
        (monitor "BTCUSDT" (some tBuy0) 103 false).2.1 = []) ∨
      ((monitor "BTCUSDT" (some tBuy0) 103 false).1 = none ∧
        Log.orderError ∈ (monitor "BTCUSDT" (some tBuy0) 103 false).2.2)) :=
  ⟨C3_order_failure_handling.1 cfg0 "BTCUSDT" buyFailTick buyCloses 1 rfl rfl
      buyCloses_action rfl,
   C3_order_failure_handling.2 "BTCUSDT" tBuy0 103⟩

/-- Counterexample to C3 as stated: with the open BUY trade tBuy0 (target
102) and price 103, the tick attempts a closing SELL order, the exchange
rejects it, and the position slot is nonetheless cleared, so the attempted
transition did happen despite the failure. -/
theorem C3_close_failure_cex :
    (tick cfg0 "BTCUSDT" (some tBuy0) closeFailTick).calls = [⟨"BTCUSDT", .SELL, 1⟩] ∧
    closeFailTick.closeOrderAccepted = false ∧
    (tick cfg0 "BTCUSDT" (some tBuy0) closeFailTick).active = none ∧
    Log.orderError ∈ (tick cfg0 "BTCUSDT" (some tBuy0) closeFailTick).logs := by
  rw [tick_eq_core cfg0 "BTCUSDT" (some tBuy0) closeFailTick flat103 103 rfl rfl,
      tickCore_hold cfg0 "BTCUSDT" (some tBuy0) closeFailTick flat103 103 flat103_action]
  refine ⟨?_, rfl, ?_, ?_⟩ <;>
    simp [holdStep, monitor, tBuy0, place_order, closeFailTick,
      show ((102:ℚ) ≤ 103) from by norm_num]

/-- C4 (amended).  The Sell entry branch fires only when a position is
already open: when the classifier yields Sell and active_trade is not None,
a SELL order for the full free balance is placed and on success the slot is
overwritten with the Sell-side target and stop; when no position is open, a
Sell signal places no order and changes nothing. -/
theorem C4_sell_entry_requires_open (cfg : Config) (symbol : String) (t : Trade)
    (inp : TickInput) (closes : List ℚ) (p bal : ℚ)
    (hf : inp.fetch = some closes) (hp : closes.getLast? = some p)
    (ha : determine_trade_action (calculate_averages closes).1
      (calculate_averages closes).2.1 (calculate_averages closes).2.2 (some p) = .Sell)
    (hb : inp.balance = some bal) (hacc : inp.entryOrderAccepted = true) :
    tick cfg symbol (some t) inp =
      ⟨some ⟨.SELL, p, bal, p * (1 - cfg.profit_target / 100),
             p * (1 + cfg.stop_loss / 100)⟩,
       [⟨symbol, .SELL, bal⟩], [Log.entrySuccess], 1, .broke⟩ ∧
    (∀ inp2 : TickInput, inp2.fetch = some closes →
      tick cfg symbol none inp2 = ⟨none, [], [], 0, .continued⟩) := by
  constructor
  · rw [tick_eq_core cfg symbol (some t) inp closes p hf hp,
        tickCore_sell_accepted cfg symbol t inp closes p bal ha hb hacc]
    simp [sell_target_price, sell_stop_price]
  · intro inp2 hf2
    rw [tick_eq_core cfg symbol none inp2 closes p hf2 hp,
        tickCore_sell_skipped cfg symbol inp2 closes p ha]

/-- Witness for C4 over the Sell window, once with the open trade tBuy0 and
once with no open position. -/
theorem C4_sell_entry_requires_open_witness :
    tick cfg0 "BTCUSDT" (some tBuy0) sellTick =
      ⟨some ⟨.SELL, 300, 5, 300 * (1 - cfg0.profit_target / 100),
             300 * (1 + cfg0.stop_loss / 100)⟩,
       [⟨"BTCUSDT", .SELL, 5⟩], [Log.entrySuccess], 1, .broke⟩ ∧
    tick cfg0 "BTCUSDT" none sellZeroTick = ⟨none, [], [], 0, .continued⟩ :=
  ⟨(C4_sell_entry_requires_open cfg0 "BTCUSDT" tBuy0 sellTick sellCloses 300 5 rfl rfl
      sellCloses_action rfl rfl).1,
   (C4_sell_entry_requires_open cfg0 "BTCUSDT" tBuy0 sellTick sellCloses 300 5 rfl rfl
      sellCloses_action rfl rfl).2 sellZeroTick rfl⟩

/-- Counterexample to C4 as stated: over the Sell window the classifier
yields Sell, no position is open, and the tick neither places any order nor
opens a position. -/
theorem C4_sell_no_position_cex :
    determine_trade_action (calculate_averages sellCloses).1
      (calculate_averages sellCloses).2.1 (calculate_averages sellCloses).2.2
      (some 300) = .Sell ∧
    tick cfg0 "BTCUSDT" none sellTick = ⟨none, [], [], 0, .continued⟩ := by
  refine ⟨sellCloses_action, ?_⟩
  rw [tick_eq_core cfg0 "BTCUSDT" none sellTick sellCloses 300 rfl rfl,
      tickCore_sell_skipped cfg0 "BTCUSDT" sellTick sellCloses 300 sellCloses_action]

/-- C5 (amended).  When the candle or balance fetch of a tick raises, the
position state is unchanged and the error is logged, but the exception
escapes the while loop: the run ends at that tick with no further
iterations, rather than proceeding to the next tick. -/
theorem C5_fetch_failure_ends_run (cfg : Config) (symbol : String) (a : Option Trade)
    (i : TickInput) (rest : List TickInput) (h : i.fetch = none) :
    runLoop cfg symbol a (i :: rest) = ⟨a, [], [Log.runError], 0⟩ := by
  unfold runLoop
  rw [tick_fetch_none cfg symbol a i h]

/-- Witness for C5 at a concrete failing fetch with one more input pending. -/
theorem C5_fetch_failure_ends_run_witness :
    runLoop cfg0 "BTCUSDT" (some tBuy0) [failTick, buyTick] =
      ⟨some tBuy0, [], [Log.runError], 0⟩ :=
  C5_fetch_failure_ends_run cfg0 "BTCUSDT" (some tBuy0) failTick [buyTick] rfl

/-- Counterexample to C5 as stated: a run whose first fetch fails ends with
no opens and only the outer error log, even though the pending second tick
would have opened a position had the loop proceeded to it. -/
theorem C5_fetch_failure_cex :
    run_bot cfg0 "BTCUSDT" none [failTick, buyTick] = ⟨none, [], [Log.runError], 0⟩ ∧
    (tick cfg0 "BTCUSDT" none buyTick).opens = 1 := by
  constructor
  · unfold run_bot runLoop
    rw [tick_fetch_none cfg0 "BTCUSDT" none failTick rfl]
  · rw [tick_eq_core cfg0 "BTCUSDT" none buyTick buyCloses 1 rfl rfl,
        tickCore_buy_accepted cfg0 "BTCUSDT" none buyTick buyCloses 1
          buyCloses_action rfl]

/-- C6 (amended).  A Buy entry at price p opens the position with target
p times (1 + profitTargetPct over 100), stop p times (1 - stopLossPct over
100) and quantity round6 of tradeAmount over p; the quantity is strictly
positive whenever tradeAmount over p exceeds half of the smallest step of
the six-decimal rounding, but rounds to zero for prices so large that
tradeAmount over p drops to that threshold or below. -/
theorem C6_buy_entry_formulas (cfg : Config) (symbol : String) (active : Option Trade)
    (inp : TickInput) (closes : List ℚ) (p : ℚ)
    (hf : inp.fetch = some closes) (hp : closes.getLast? = some p)
    (ha : determine_trade_action (calculate_averages closes).1
      (calculate_averages closes).2.1 (calculate_averages closes).2.2 (some p) = .Buy)
    (hacc : inp.entryOrderAccepted = true) :
    (tick cfg symbol active inp).active =
      some ⟨.BUY, p, round6 (cfg.trade_amount / p),
            p * (1 + cfg.profit_target / 100), p * (1 - cfg.stop_loss / 100)⟩ ∧
    (0 < p → 1/2000000 < cfg.trade_amount / p → 0 < round6 (cfg.trade_amount / p)) := by
  constructor
  · rw [tick_eq_core cfg symbol active inp closes p hf hp,
        tickCore_buy_accepted cfg symbol active inp closes p ha hacc]
    simp [buy_target_price, buy_stop_price]
  · exact fun _ h2 => round6_pos _ h2

/-- Witness for C6 at the Buy window with price 1 and the minimum trade
amount 10, whose quantity 10 is positive. -/
theorem C6_buy_entry_formulas_witness :
    (tick cfgMin "BTCUSDT" none buyTick).active =
      some ⟨.BUY, 1, round6 (cfgMin.trade_amount / 1),
            1 * (1 + cfgMin.profit_target / 100), 1 * (1 - cfgMin.stop_loss / 100)⟩ ∧
    0 < round6 (cfgMin.trade_amount / 1) :=
  ⟨(C6_buy_entry_formulas cfgMin "BTCUSDT" none buyTick buyCloses 1 rfl rfl
      buyCloses_action rfl).1,
   (C6_buy_entry_formulas cfgMin "BTCUSDT" none buyTick buyCloses 1 rfl rfl
      buyCloses_action rfl).2 (by norm_num) (by norm_num [cfgMin])⟩

/-- Counterexample to C6 as stated: at price one hundred million with the
minimum trade amount 10, the Buy entry stores quantity round6 of 10 over
one hundred million, which equals zero, refuting strict positivity for
every positive price. -/
theorem C6_zero_quantity_cex :
    (tick cfgMin "BTCUSDT" none bigTick).active =
      some ⟨.BUY, 100000000, round6 (cfgMin.trade_amount / 100000000),
            102000000, 98000000⟩ ∧
    round6 (cfgMin.trade_amount / 100000000) = 0 ∧ (0:ℚ) < 100000000 := by
  refine ⟨?_, ?_, by norm_num⟩
  · rw [tick_eq_core cfgMin "BTCUSDT" none bigTick bigCloses 100000000 rfl rfl,
        tickCore_buy_accepted cfgMin "BTCUSDT" none bigTick bigCloses 100000000
          bigCloses_action rfl]
    simp only [Option.some.injEq, Trade.mk.injEq, buy_target_price, buy_stop_price, cfgMin]
    norm_num
  · have h := pyRoundInt_down (cfgMin.trade_amount / 100000000 * 1000000) 0
      (by norm_num [cfgMin]) (by norm_num [cfgMin])
    unfold round6
    rw [h]
    norm_num

/-- C7.  A nonempty window with fewer than fifty candles has an undefined
long average, and an undefined short, medium or long average makes the
classifier return Hold for every current price. -/
theorem C7_short_window_hold (closes : List ℚ) (h0 : 0 < closes.length)
    (h50 : closes.length < 50) :
    (calculate_averages closes).2.2 = none ∧
    (∀ s m l p : Option ℚ, s = none ∨ m = none ∨ l = none →
      determine_trade_action s m l p = .Hold) := by
  constructor
  · unfold calculate_averages rollingMeanLast
    simp [h50]
  · rintro s m l p (rfl | rfl | rfl) <;>
      simp [determine_trade_action, qlt_none_left, qlt_none_right]

/-- Witness for C7 at the three-candle window, with the undefined short
average case of the classifier instantiated. -/
theorem C7_short_window_hold_witness :
    (calculate_averages [1, 2, 3]).2.2 = none ∧
    determine_trade_action none (some 1) (some 1) (some 1) = .Hold :=
  ⟨(C7_short_window_hold [1, 2, 3] (by decide) (by decide)).1,
   (C7_short_window_hold [1, 2, 3] (by decide) (by decide)).2 none (some 1) (some 1)
     (some 1) (Or.inl rfl)⟩

/-- C8.  The Buy-side and Sell-side target and stop formulas are mirror
images about the entry price: for the same price and percentages, the
Buy target equals the price times one plus the percentage over 100 while
the Sell target equals the price times one minus it, and symmetrically for
the stops, so the offsets above and below the entry price coincide. -/
theorem C8_mirror_formulas (p x : ℚ) :
    buy_target_price p x = p * (1 + x / 100) ∧
    sell_target_price p x = p * (1 - x / 100) ∧
    buy_stop_price p x = p * (1 - x / 100) ∧
    sell_stop_price p x = p * (1 + x / 100) ∧
    buy_target_price p x - p = p - sell_target_price p x ∧
    sell_stop_price p x - p = p - buy_stop_price p x ∧
    buy_target_price p x = sell_stop_price p x ∧
    buy_stop_price p x = sell_target_price p x := by
  unfold buy_target_price sell_target_price buy_stop_price sell_stop_price
  exact ⟨rfl, rfl, rfl, rfl, by ring, by ring, rfl, rfl⟩

/-- C9 (amended).  place_order performs no quantity validation: every
invocation, a zero quantity included, results in exactly one order_market
call carrying the given quantity to the exchange collaborator. -/
theorem C9_no_quantity_validation (side : Side) (quantity : ℚ) (symbol : String)
    (accepted : Bool) :
    (place_order side quantity symbol accepted).2.1 = [⟨symbol, side, quantity⟩] := rfl

/-- Counterexample to C9 as stated: a SELL with quantity zero does call
order_market, and a tick selling a zero free balance submits that call to
the exchange. -/
theorem C9_zero_quantity_call_cex :
    (place_order .SELL 0 "BTCUSDT" false).2.1 = [⟨"BTCUSDT", .SELL, 0⟩] ∧
    (place_order .SELL 0 "BTCUSDT" false).2.1 ≠ [] ∧
    (tick cfg0 "BTCUSDT" (some tBuy0) sellZeroTick).calls = [⟨"BTCUSDT", .SELL, 0⟩] := by
  refine ⟨rfl, by simp [place_order], ?_⟩
  rw [tick_eq_core cfg0 "BTCUSDT" (some tBuy0) sellZeroTick sellCloses 300 rfl rfl,
      tickCore_sell_accepted cfg0 "BTCUSDT" tBuy0 sellZeroTick sellCloses 300 0
        sellCloses_action rfl rfl]

/-- C10.  A tick whose classification is Hold and in which no exit condition
holds (no open position, or the price strictly between the stop and target
of the open position on its side) places no order and leaves the
active-trade slot exactly as it was. -/
theorem C10_hold_frame (cfg : Config) (symbol : String) (active : Option Trade)
    (inp : TickInput) (closes : List ℚ) (p : ℚ)
    (hf : inp.fetch = some closes) (hp : closes.getLast? = some p)
    (ha : determine_trade_action (calculate_averages closes).1
      (calculate_averages closes).2.1 (calculate_averages closes).2.2 (some p) = .Hold)
    (hexit : active = none ∨ ∃ t, active = some t ∧
      ((t.side = .BUY ∧ t.stop_price < p ∧ p < t.target_price) ∨
       (t.side = .SELL ∧ t.target_price < p ∧ p < t.stop_price))) :
    (tick cfg symbol active inp).active = active ∧
      (tick cfg symbol active inp).calls = [] := by
  rw [tick_eq_core cfg symbol active inp closes p hf hp,
      tickCore_hold cfg symbol active inp closes p ha]
  rcases hexit with rfl | ⟨t, rfl, hcond⟩
  · simp [holdStep, monitor]
  · rcases hcond with ⟨hside, h1, h2⟩ | ⟨hside, h1, h2⟩ <;>
      simp [holdStep, monitor, hside, not_le.mpr h1, not_le.mpr h2]

/-- Witness for C10 at the flat window with the open trade tBuy0, whose
price 100 lies strictly between stop 98 and target 102. -/
theorem C10_hold_frame_witness :
    (tick cfg0 "BTCUSDT" (some tBuy0) flatTick).active = some tBuy0 ∧
      (tick cfg0 "BTCUSDT" (some tBuy0) flatTick).calls = [] :=
  C10_hold_frame cfg0 "BTCUSDT" (some tBuy0) flatTick flat100 100 rfl rfl flat100_action
    (Or.inr ⟨tBuy0, rfl, Or.inl ⟨rfl, by norm_num [tBuy0], by norm_num [tBuy0]⟩⟩)

end App
